import Mathlib

/-!
Verification of the query-construction and transaction-execution core of
mysql-orm-lite, shallowly embedded from `src/lib/crud.ts`,
`src/lib/transactionManager.ts` and the `TransactionCRUD` class.

Conventions of the embedding:
* JavaScript values appearing as SQL parameters are modelled by `Scalar`
  (numbers and strings) and `Operand` (a scalar or an array of scalars).
* A JavaScript `throw` is modelled by `Except.error` carrying the message.
* The mutable `params` array of `_buildWhereClause` is modelled in writer
  style: every compiling function returns the fragment it produced together
  with the parameters it pushed, and callers concatenate in the same order
  the source pushes them (the source appends parameters exactly at the point
  the corresponding fragment is produced, left to right).
-/

namespace MysqlOrmLite

/-- A scalar JavaScript value used as a bound parameter. -/
inductive Scalar where
  | int (n : Int)
  | str (s : String)
deriving DecidableEq

/-- An operand of a condition operator: a scalar or an array of scalars. -/
inductive Operand where
  | sc (v : Scalar)
  | lst (vs : List Scalar)
deriving DecidableEq

/-- The value attached to a column key inside a condition object:
`null`, a plain scalar, a plain array, or an operator map such as
`{$gt: 5, $lt: 10}` (an ordered list of operator/operand entries,
matching `Object.entries` insertion order). -/
inductive CondVal where
  | null
  | sc (v : Scalar)
  | lst (vs : List Scalar)
  | ops (entries : List (String × Operand))
deriving DecidableEq

/-- A condition tree (the `WhereConditions` argument of `_buildWhereClause`):
a plain object of column/value entries, a bare array (implicit AND list),
or a `$and`/`$or`/`$not` combinator object. -/
inductive Cond where
  | obj (entries : List (String × CondVal))
  | arr (items : List Cond)
  | cAnd (items : List Cond)
  | cOr (items : List Cond)
  | cNot (c : Cond)

/-- Model of `Array.prototype.join(sep)` on a list of strings. -/
def joinSep (sep : String) : List String → String
  | [] => ""
  | [x] => x
  | x :: xs => x ++ sep ++ joinSep sep xs

/-- Model of `val.map(() => '?').join(', ')`: the placeholder list for an n-element array. -/
def placeholders (n : Nat) : String :=
  joinSep ", " (List.replicate n "?")

/-- One operator case of the `switch` inside `buildCondition`
(`crud.ts` lines 94-118).  Returns the emitted fragment together with the
parameters pushed for it.  Non-array operands of `$in`/`$nin`/`$between`
follow the source's duck typing on `val.length`: numbers have no `length`
(so `$in` degenerates and `$between` throws), strings use their character
count, and a non-empty string operand of `$in` makes `val.map` throw. -/
def buildOp (column : String) (op : String) (val : Operand) : Except String (String × List Operand) :=
  if op = "$eq" then .ok (column ++ " = ?", [val])
  else if op = "$ne" then .ok (column ++ " != ?", [val])
  else if op = "$gt" then .ok (column ++ " > ?", [val])
  else if op = "$gte" then .ok (column ++ " >= ?", [val])
  else if op = "$lt" then .ok (column ++ " < ?", [val])
  else if op = "$lte" then .ok (column ++ " <= ?", [val])
  else if op = "$in" then
    match val with
    | .sc (.int _) => .ok ("FALSE", [])
    | .sc (.str s) =>
        if s.isEmpty then .ok ("FALSE", [])
        else .error "val.map is not a function"
    | .lst [] => .ok ("FALSE", [])
    | .lst vs => .ok (column ++ " IN (" ++ placeholders vs.length ++ ")", vs.map Operand.sc)
  else if op = "$notIn" ∨ op = "$nIn" ∨ op = "$nin" then
    match val with
    | .sc (.int _) => .ok ("TRUE", [])
    | .sc (.str s) =>
        if s.isEmpty then .ok ("TRUE", [])
        else .error "val.map is not a function"
    | .lst [] => .ok ("TRUE", [])
    | .lst vs => .ok (column ++ " NOT IN (" ++ placeholders vs.length ++ ")", vs.map Operand.sc)
  else if op = "$like" then .ok (column ++ " LIKE ?", [val])
  else if op = "$between" then
    match val with
    | .lst [a, b] => .ok (column ++ " BETWEEN ? AND ?", [.sc a, .sc b])
    | .sc (.str s) =>
        match s.data with
        | [a, b] => .ok (column ++ " BETWEEN ? AND ?", [.sc (.str a.toString), .sc (.str b.toString)])
        | _ => .error "$between requires [min, max]"
    | _ => .error "$between requires [min, max]"
  else .error ("Unsupported operator: " ++ op)

/-- Folds `buildOp` over the entries of an operator map, in order. -/
def opResults (column : String) : List (String × Operand) → Except String (List (String × List Operand))
  | [] => .ok []
  | e :: rest => do
      let r ← buildOp column e.1 e.2
      let rs ← opResults column rest
      .ok (r :: rs)

/-- Model of `buildCondition(key, value)` inside `_buildWhereClause` (`crud.ts` lines 89-123):
`null` gives `IS NULL` with no parameter; an operator map joins its
fragments with AND; any other value (scalar or bare array) is pushed as a
single parameter of `col = ?`. -/
def buildCondition (column : String) : CondVal → Except String (String × List Operand)
  | .null => .ok (column ++ " IS NULL", [])
  | .sc v => .ok (column ++ " = ?", [.sc v])
  | .lst vs => .ok (column ++ " = ?", [.lst vs])
  | .ops entries => do
      let rs ← opResults column entries
      .ok (joinSep " AND " (rs.map Prod.fst), (rs.map Prod.snd).flatten)

/-- Folds `buildCondition` over the entries of a condition object, in order. -/
def condEntries : List (String × CondVal) → Except String (List (String × List Operand))
  | [] => .ok []
  | e :: rest => do
      let r ← buildCondition e.1 e.2
      let rs ← condEntries rest
      .ok (r :: rs)

mutual

/-- The `walk` function of `_buildWhereClause` (`crud.ts` lines 125-134). -/
def walk : Cond → Except String (String × List Operand)
  | .obj entries => do
      let rs ← condEntries entries
      .ok (joinSep " AND " (rs.map Prod.fst), (rs.map Prod.snd).flatten)
  | .arr items => do
      let rs ← walkList items
      .ok (joinSep " AND " (rs.map Prod.fst), (rs.map Prod.snd).flatten)
  | .cAnd items => do
      let rs ← walkList items
      .ok ("(" ++ joinSep " AND " (rs.map Prod.fst) ++ ")", (rs.map Prod.snd).flatten)
  | .cOr items => do
      let rs ← walkList items
      .ok ("(" ++ joinSep " OR " (rs.map Prod.fst) ++ ")", (rs.map Prod.snd).flatten)
  | .cNot c => do
      let r ← walk c
      .ok ("(NOT " ++ r.1 ++ ")", r.2)

/-- Model of `cond.map(walk)` over a list of sub-conditions, in order. -/
def walkList : List Cond → Except String (List (String × List Operand))
  | [] => .ok []
  | c :: cs => do
      let r ← walk c
      let rs ← walkList cs
      .ok (r :: rs)

end

/-- Model of `utils._buildWhereClause` (`crud.ts` lines 87-138): the clause produced by
`walk` together with the parameters pushed during the traversal. -/
def _buildWhereClause (conditions : Cond) : Except String (String × List Operand) :=
  walk conditions

example : _buildWhereClause (.cOr [.obj [("a", .sc (.int 1))], .obj [("b", .sc (.int 2))]])
    = .ok ("(a = ? OR b = ?)", [.sc (.int 1), .sc (.int 2)]) := rfl

example : _buildWhereClause (.obj [("age", .null)]) = .ok ("age IS NULL", []) := rfl

example : _buildWhereClause (.obj [("price", .ops [("$between", .lst [.int 10, .int 100])])])
    = .ok ("price BETWEEN ? AND ?", [.sc (.int 10), .sc (.int 100)]) := rfl

example : _buildWhereClause (.obj [("status", .ops [("$in", .lst [])])])
    = .ok ("FALSE", []) := rfl

example : _buildWhereClause (.obj []) = .ok ("", []) := rfl

/-! ### Measurements on condition trees

`countQ` counts the `?` placeholders of a fragment; `leafCount` counts the
comparison leaves of a tree; `dfParams` lists the operands of the comparison
leaves in depth-first, left-to-right traversal order; `condOk` restricts a
tree to single-parameter comparison operators (no `$in` family, no
`$between`, no unrecognized operator) over column names that themselves
contain no `?` character. -/

/-- Number of `?` placeholder characters in an SQL fragment. -/
def countQ (s : String) : Nat :=
  s.data.count '?'

/-- A column name free of the placeholder character. -/
def colClean (k : String) : Bool :=
  countQ k == 0

/-- The single-parameter comparison operators of the condition mini-language
(every recognized operator except the `$in` family and `$between`). -/
def okOp (op : String) : Bool :=
  op == "$eq" || op == "$ne" || op == "$gt" || op == "$gte" ||
  op == "$lt" || op == "$lte" || op == "$like"

/-- Comparison-leaf count of a condition value. -/
def cvLeaves : CondVal → Nat
  | .null => 0
  | .sc _ => 1
  | .lst _ => 1
  | .ops entries => entries.length

/-- Depth-first parameter sequence of a condition value (for trees made of
single-parameter comparison operators, each leaf contributes its operand). -/
def cvParams : CondVal → List Operand
  | .null => []
  | .sc v => [.sc v]
  | .lst vs => [.lst vs]
  | .ops entries => entries.map Prod.snd

/-- A condition value using only single-parameter comparison operators. -/
def cvOk : CondVal → Bool
  | .ops entries => entries.all (fun e => okOp e.1)
  | _ => true

/-- Comparison-leaf count of an object's entry list. -/
def entriesLeaves : List (String × CondVal) → Nat
  | [] => 0
  | e :: rest => cvLeaves e.2 + entriesLeaves rest

/-- Depth-first parameter sequence of an object's entry list. -/
def entriesParams : List (String × CondVal) → List Operand
  | [] => []
  | e :: rest => cvParams e.2 ++ entriesParams rest

mutual

/-- Number of comparison leaves of a condition tree. -/
def leafCount : Cond → Nat
  | .obj entries => entriesLeaves entries
  | .arr items => leafCountList items
  | .cAnd items => leafCountList items
  | .cOr items => leafCountList items
  | .cNot c => leafCount c

/-- Sum of the comparison-leaf counts of a list of sub-trees. -/
def leafCountList : List Cond → Nat
  | [] => 0
  | c :: cs => leafCount c + leafCountList cs

end

mutual

/-- The operands of a tree's comparison leaves in depth-first,
left-to-right traversal order. -/
def dfParams : Cond → List Operand
  | .obj entries => entriesParams entries
  | .arr items => dfParamsList items
  | .cAnd items => dfParamsList items
  | .cOr items => dfParamsList items
  | .cNot c => dfParams c

/-- Depth-first parameter sequence of a list of sub-trees. -/
def dfParamsList : List Cond → List Operand
  | [] => []
  | c :: cs => dfParams c ++ dfParamsList cs

end

mutual

/-- A tree whose leaves all use single-parameter comparison operators
(excluding the `$in` family and `$between`) over clean column names. -/
def condOk : Cond → Bool
  | .obj entries => entries.all (fun e => colClean e.1 && cvOk e.2)
  | .arr items => condOkList items
  | .cAnd items => condOkList items
  | .cOr items => condOkList items
  | .cNot c => condOk c

/-- Extension of `condOk` to every member of a list of sub-trees. -/
def condOkList : List Cond → Bool
  | [] => true
  | c :: cs => condOk c && condOkList cs

end

/-! ### Update and delete builders -/

/-- A value of an update `data` map: `undefined` (dropped), `null`
(`col = NULL`, no parameter), a tagged raw expression `{__raw: true,
value: text}` (spliced verbatim, no parameter), or an ordinary value
(bound parameter). -/
inductive UpdVal where
  | undef
  | null
  | raw (text : String)
  | val (v : Operand)
deriving DecidableEq

/-- Model of `utils.prepareUpdateParams` (`crud.ts` lines 64-85): walks the `data`
entries in order, producing the `SET` fragments and the bound parameters. -/
def prepareUpdateParams : List (String × UpdVal) → List String × List Operand
  | [] => ([], [])
  | (k, v) :: rest =>
      let r := prepareUpdateParams rest
      match v with
      | .undef => r
      | .raw t => ((k ++ " = " ++ t) :: r.1, r.2)
      | .null => ((k ++ " = NULL") :: r.1, r.2)
      | .val w => ((k ++ " = ?") :: r.1, w :: r.2)

/-- Model of `UpdateOptions` from `types.ts`: table, data map, optional where tree.
(`where` is a Lean keyword, hence the field name `whereC`.) -/
structure UpdateOptions where
  table : String
  data : List (String × UpdVal)
  whereC : Option Cond

/-- Model of `DeleteOptions` from `types.ts`; the `where` key may be absent at runtime
even though the TS type requires it, hence an `Option`. -/
structure DeleteOptions where
  table : String
  whereC : Option Cond

/-- Model of `utils._buildUpdateQuery` (`crud.ts` lines 182-200). -/
def _buildUpdateQuery (options : UpdateOptions) : Except String (String × List Operand) :=
  let r := prepareUpdateParams options.data
  if r.1.isEmpty then .error "No valid fields to update"
  else
    let base := "UPDATE " ++ options.table ++ " SET " ++ joinSep ", " r.1
    match options.whereC with
    | none => .ok (base, r.2)
    | some w =>
        match _buildWhereClause w with
        | .error e => .error e
        | .ok (clause, whereParams) =>
            if clause = "" then .ok (base, r.2)
            else .ok (base ++ " WHERE " ++ clause, r.2 ++ whereParams)

/-- Model of `utils._buildDeleteQuery` (`crud.ts` lines 202-222). -/
def _buildDeleteQuery (options : DeleteOptions) : Except String (String × List Operand) :=
  if options.table = "" then .error "Table name is required for delete"
  else
    match options.whereC with
    | none => .error "DELETE requires a WHERE clause for safety"
    | some w =>
        match _buildWhereClause w with
        | .error e => .error e
        | .ok (clause, whereParams) =>
            if clause = "" then .error "DELETE requires a valid WHERE clause for safety"
            else .ok ("DELETE FROM " ++ options.table ++ " WHERE " ++ clause, whereParams)

/-- The clause text produced by a successful compilation (empty on failure). -/
def clauseOf (c : Cond) : String :=
  match walk c with
  | .ok r => r.1
  | .error _ => ""

/-- Whether a computation ended in a thrown error. -/
def isError {α : Type} : Except String α → Bool
  | .error _ => true
  | .ok _ => false

/-! ### Transaction session state machine

`TransactionCRUD` holds `this.connection` (here: whether a connection is
currently held) and `this.transactionActive`.  Each method is a step
function from the current state to a new state, a result
(`Except.error` models a JavaScript `throw`), and the chronological list
of operations performed on the pool/connection.  The success or failure of
each fallible underlying operation is an explicit argument
(`none` = success, `some e` = the operation rejects with error `e`);
`connection.release()` does not fail. -/

/-- The fields of a `TransactionCRUD` instance:
`connection` is `true` while `this.connection !== null`. -/
structure TxState where
  connection : Bool
  transactionActive : Bool
deriving DecidableEq

/-- A freshly constructed session (the Created state). -/
def created : TxState :=
  { connection := false, transactionActive := false }

/-- Operations a session performs on the pool and its reserved connection. -/
inductive TxEvent where
  | acquire
  | beginTx
  | commitTx
  | rollbackTx
  | queryTx
  | release
deriving DecidableEq

/-- Model of `TransactionCRUD.init` (lines 16-35): reserve a connection, begin a
transaction; on failure release any partially acquired connection and
re-raise.  `acquireErr` covers failure of `getPool`/`getConnection`
(in which case `this.connection` keeps its previous value and the catch
block releases it if non-null); `beginErr` covers failure of
`beginTransaction`. -/
def stepInit (s : TxState) (acquireErr beginErr : Option String) :
    TxState × Except String Unit × List TxEvent :=
  match acquireErr with
  | some e =>
      if s.connection then
        ({ connection := false, transactionActive := s.transactionActive }, .error e, [.release])
      else (s, .error e, [])
  | none =>
      match beginErr with
      | some e =>
          ({ connection := false, transactionActive := s.transactionActive }, .error e,
            [.acquire, .beginTx, .release])
      | none => ({ connection := true, transactionActive := true }, .ok (), [.acquire, .beginTx])

/-- Model of `TransactionCRUD.executeQuery` (lines 40-61): fails fast unless a
connection is held and the transaction is active; otherwise runs the
statement on the reserved connection and propagates its outcome. -/
def stepExecute (s : TxState) (queryErr : Option String) :
    TxState × Except String Unit × List TxEvent :=
  if !s.connection || !s.transactionActive then
    (s, .error "No active transaction. Call init() first.", [])
  else
    match queryErr with
    | some e => (s, .error e, [.queryTx])
    | none => (s, .ok (), [.queryTx])

/-- Model of `TransactionCRUD.rollback` (lines 87-99): a no-op without a held
connection; otherwise attempts the rollback (its failure is logged and
swallowed) and in `finally` runs `_cleanup` (lines 101-107): release the
connection, clear it, mark the transaction inactive. -/
def stepRollback (s : TxState) (rollbackErr : Option String) :
    TxState × Except String Unit × List TxEvent :=
  if !s.connection then (s, .ok (), [])
  else
    match rollbackErr with
    | some _ => ({ connection := false, transactionActive := false }, .ok (), [.rollbackTx, .release])
    | none => ({ connection := false, transactionActive := false }, .ok (), [.rollbackTx, .release])

/-- Model of `TransactionCRUD.commit` (lines 66-82): fails fast without an active
transaction; on commit failure awaits `this.rollback()` (which releases and
cleans up) and re-raises the original commit error; the `finally` block
runs `_cleanup` again, which releases only if a connection is still held. -/
def stepCommit (s : TxState) (commitErr rollbackErr : Option String) :
    TxState × Except String Unit × List TxEvent :=
  if !s.connection || !s.transactionActive then
    (s, .error "No active transaction to commit", [])
  else
    match commitErr with
    | none => ({ connection := false, transactionActive := false }, .ok (), [.commitTx, .release])
    | some e =>
        match rollbackErr with
        | some _ =>
            ({ connection := false, transactionActive := false }, .error e,
              [.commitTx, .rollbackTx, .release])
        | none =>
            ({ connection := false, transactionActive := false }, .error e,
              [.commitTx, .rollbackTx, .release])

/-- A call to a session method, carrying the outcome of each underlying
connection operation it may perform. -/
inductive TxCall where
  | init (acquireErr beginErr : Option String)
  | execute (queryErr : Option String)
  | commit (commitErr rollbackErr : Option String)
  | rollback (rollbackErr : Option String)

/-- Dispatch one method call. -/
def step (s : TxState) : TxCall → TxState × Except String Unit × List TxEvent
  | .init a b => stepInit s a b
  | .execute q => stepExecute s q
  | .commit c r => stepCommit s c r
  | .rollback r => stepRollback s r

/-- Run a sequence of calls, accumulating the event log chronologically. -/
def run (s : TxState) : List TxCall → TxState × List TxEvent
  | [] => (s, [])
  | c :: cs =>
      let r := step s c
      let rest := run r.1 cs
      (rest.1, r.2.2 ++ rest.2)

/-- A call sequence that invokes `init` only while no connection is held
(the lifecycle of §4.4: `init` is the Created→Active transition; re-running
`init` on a session that still holds a connection is outside the protocol
and would overwrite the held handle). -/
def safeCalls (s : TxState) : List TxCall → Bool
  | [] => true
  | .init a b :: cs => !s.connection && safeCalls (step s (.init a b)).1 cs
  | .execute q :: cs => safeCalls (step s (.execute q)).1 cs
  | .commit a b :: cs => safeCalls (step s (.commit a b)).1 cs
  | .rollback a :: cs => safeCalls (step s (.rollback a)).1 cs

/-! ### Transaction registry -/

/-- Model of `transactionManager.hasActiveTransaction` (`transactionManager.ts`
lines 18-21): `transactionInstance !== null && transactionInstance.transactionActive`.
The single registry slot is the `Option TxState` argument. -/
def hasActiveTransaction (transactionInstance : Option TxState) : Bool :=
  match transactionInstance with
  | none => false
  | some s => s.transactionActive

/-! ### Non-transactional entry points `find` and `findCount` -/

/-- A result row, as a list of column/value pairs. -/
def Row := List (String × Scalar)

/-- The database environment behind `connectionManager.getPool` and
`pool.query`: whether resolving the pool succeeds, and the outcome of a
query sent to the pool. -/
structure Db where
  poolOk : Except String Unit
  answer : String → List Operand → Except String (List Row)

/-- Calls issued to the connection layer. -/
inductive DbEvent where
  | getPool
  | query (sql : String) (params : List Operand)

/-- Model of `utils.executeQuery` (`crud.ts` lines 29-48): resolve the pool, run the
statement, propagate failures unchanged; the event log records the pool
resolution and the issued statement. -/
def executeQuery (db : Db) (query : String) (params : List Operand) :
    Except String (List Row) × List DbEvent :=
  match db.poolOk with
  | .error e => (.error e, [.getPool])
  | .ok () => (db.answer query params, [.getPool, .query query params])

/-- Model of `find` (`crud.ts` lines 226-229): an empty (falsy) query string returns
`[]` before anything touches the pool. -/
def find (db : Db) (query : String) (params : List Operand) :
    Except String (List Row) × List DbEvent :=
  if query = "" then (.ok [], [])
  else executeQuery db query params

/-- Model of `results && results[0] ? results[0].count : 0` — the `count` column of
the first row; `none` models the JavaScript `undefined`. -/
def extractCount (results : List Row) : Option Scalar :=
  match results with
  | [] => some (.int 0)
  | r :: _ =>
      match r.find? (fun p => p.1 == "count") with
      | some p => some p.2
      | none => none

/-- Model of `findCount` (`crud.ts` lines 231-235): an empty (falsy) query string
returns `0` before anything touches the pool. -/
def findCount (db : Db) (query : String) (params : List Operand) :
    Except String (Option Scalar) × List DbEvent :=
  if query = "" then (.ok (some (.int 0)), [])
  else
    match executeQuery db query params with
    | (.ok results, events) => (.ok (extractCount results), events)
    | (.error e, events) => (.error e, events)

/-! ## Helper lemmas -/

lemma countQ_append (a b : String) : countQ (a ++ b) = countQ a + countQ b := by
  simp [countQ, String.data_append, List.count_append]

lemma countQ_joinSep (sep : String) (hsep : countQ sep = 0) :
    ∀ l : List String, countQ (joinSep sep l) = (l.map countQ).sum
  | [] => by simp [joinSep, countQ]
  | [x] => by simp [joinSep]
  | x :: y :: xs => by
      have ih := countQ_joinSep sep hsep (y :: xs)
      simp only [joinSep, countQ_append, hsep, ih, List.map_cons, List.sum_cons]
      omega

lemma prepareUpdateParams_append (xs ys : List (String × UpdVal)) :
    prepareUpdateParams (xs ++ ys)
      = ((prepareUpdateParams xs).1 ++ (prepareUpdateParams ys).1,
         (prepareUpdateParams xs).2 ++ (prepareUpdateParams ys).2) := by
  induction xs with
  | nil => simp [prepareUpdateParams]
  | cons e xs ih =>
      obtain ⟨k, v⟩ := e
      cases v <;> simp [prepareUpdateParams, ih]

lemma prepareUpdateParams_undef (l : List (String × UpdVal))
    (h : ∀ p ∈ l, p.2 = UpdVal.undef) : prepareUpdateParams l = ([], []) := by
  induction l with
  | nil => rfl
  | cons e l ih =>
      obtain ⟨k, v⟩ := e
      have hv : v = UpdVal.undef := h (k, v) (List.mem_cons_self _ _)
      subst hv
      exact ih fun p hp => h p (List.mem_cons_of_mem _ hp)

lemma buildOp_single_param (col op : String) (val : Operand)
    (hop : okOp op = true) (hcol : countQ col = 0) :
    ∃ frag, buildOp col op val = .ok (frag, [val]) ∧ countQ frag = 1 := by
  have hop' : (((((op = "$eq" ∨ op = "$ne") ∨ op = "$gt") ∨ op = "$gte") ∨ op = "$lt")
      ∨ op = "$lte") ∨ op = "$like" := by
    simpa [okOp] using hop
  rcases hop' with (((((h | h) | h) | h) | h) | h) | h <;> subst h
  · exact ⟨col ++ " = ?", rfl, by rw [countQ_append, hcol]; decide⟩
  · exact ⟨col ++ " != ?", rfl, by rw [countQ_append, hcol]; decide⟩
  · exact ⟨col ++ " > ?", rfl, by rw [countQ_append, hcol]; decide⟩
  · exact ⟨col ++ " >= ?", rfl, by rw [countQ_append, hcol]; decide⟩
  · exact ⟨col ++ " < ?", rfl, by rw [countQ_append, hcol]; decide⟩
  · exact ⟨col ++ " <= ?", rfl, by rw [countQ_append, hcol]; decide⟩
  · exact ⟨col ++ " LIKE ?", rfl, by rw [countQ_append, hcol]; decide⟩

lemma opResults_spec (col : String) (hcol : countQ col = 0) :
    ∀ entries : List (String × Operand), entries.all (fun e => okOp e.1) = true →
      ∃ rs, opResults col entries = .ok rs ∧
        ((rs.map Prod.fst).map countQ).sum = entries.length ∧
        (rs.map Prod.snd).flatten = entries.map Prod.snd
  | [], _ => ⟨[], rfl, rfl, rfl⟩
  | e :: rest, h => by
      rw [List.all_cons, Bool.and_eq_true] at h
      obtain ⟨frag, hfrag, hcnt⟩ := buildOp_single_param col e.1 e.2 h.1 hcol
      obtain ⟨rs, hrs, hsum, hflat⟩ := opResults_spec col hcol rest h.2
      refine ⟨(frag, [e.2]) :: rs, ?_, ?_, ?_⟩
      · simp only [opResults, hfrag, hrs]
        rfl
      · simp only [List.map_cons, List.sum_cons, List.length_cons, hcnt, hsum]
        omega
      · simp [hflat]

lemma buildCondition_spec (col : String) (v : CondVal)
    (hcol : countQ col = 0) (hv : cvOk v = true) :
    ∃ cl ps, buildCondition col v = .ok (cl, ps) ∧
      countQ cl = cvLeaves v ∧ ps = cvParams v := by
  cases v with
  | null =>
      exact ⟨col ++ " IS NULL", [], rfl, by rw [countQ_append, hcol]; decide, rfl⟩
  | sc w =>
      exact ⟨col ++ " = ?", [.sc w], rfl,
        by rw [countQ_append, hcol]; simp only [cvLeaves]; decide, rfl⟩
  | lst vs =>
      exact ⟨col ++ " = ?", [.lst vs], rfl,
        by rw [countQ_append, hcol]; simp only [cvLeaves]; decide, rfl⟩
  | ops entries =>
      obtain ⟨rs, hrs, hsum, hflat⟩ := opResults_spec col hcol entries (by simpa [cvOk] using hv)
      refine ⟨joinSep " AND " (rs.map Prod.fst), (rs.map Prod.snd).flatten, ?_, ?_, ?_⟩
      · simp only [buildCondition, hrs]
        rfl
      · rw [countQ_joinSep " AND " (by decide), List.map_map]
        simpa [cvLeaves, Function.comp] using hsum
      · simpa [cvParams] using hflat

lemma condEntries_spec :
    ∀ entries : List (String × CondVal),
      entries.all (fun e => colClean e.1 && cvOk e.2) = true →
      ∃ rs, condEntries entries = .ok rs ∧
        ((rs.map Prod.fst).map countQ).sum = entriesLeaves entries ∧
        (rs.map Prod.snd).flatten = entriesParams entries
  | [], _ => ⟨[], rfl, rfl, rfl⟩
  | e :: rest, h => by
      rw [List.all_cons, Bool.and_eq_true, Bool.and_eq_true] at h
      obtain ⟨⟨hclean, hok⟩, hrest⟩ := h
      have hcol : countQ e.1 = 0 := by simpa [colClean] using hclean
      obtain ⟨cl, ps, hbc, hcnt, hps⟩ := buildCondition_spec e.1 e.2 hcol hok
      obtain ⟨rs, hrs, hsum, hflat⟩ := condEntries_spec rest hrest
      refine ⟨(cl, ps) :: rs, ?_, ?_, ?_⟩
      · simp only [condEntries, hbc, hrs]
        rfl
      · simp only [List.map_cons, List.sum_cons, entriesLeaves, hcnt, hsum]
      · simp only [List.map_cons, List.flatten_cons, entriesParams, hps, hflat]

mutual

theorem walk_spec : ∀ c : Cond, condOk c = true →
    ∃ cl ps, walk c = Except.ok (cl, ps) ∧ countQ cl = leafCount c ∧ ps = dfParams c
  | .obj entries, h => by
      obtain ⟨rs, hrs, hsum, hflat⟩ := condEntries_spec entries (by simpa [condOk] using h)
      refine ⟨joinSep " AND " (rs.map Prod.fst), (rs.map Prod.snd).flatten, ?_, ?_, ?_⟩
      · simp only [walk, hrs]
        rfl
      · rw [countQ_joinSep " AND " (by decide)]
        simpa [leafCount] using hsum
      · simpa [dfParams] using hflat
  | .arr items, h => by
      obtain ⟨rs, hrs, hsum, hflat⟩ := walkList_spec items (by simpa [condOk] using h)
      refine ⟨joinSep " AND " (rs.map Prod.fst), (rs.map Prod.snd).flatten, ?_, ?_, ?_⟩
      · simp only [walk, hrs]
        rfl
      · rw [countQ_joinSep " AND " (by decide)]
        simpa [leafCount] using hsum
      · simpa [dfParams] using hflat
  | .cAnd items, h => by
      obtain ⟨rs, hrs, hsum, hflat⟩ := walkList_spec items (by simpa [condOk] using h)
      refine ⟨"(" ++ joinSep " AND " (rs.map Prod.fst) ++ ")", (rs.map Prod.snd).flatten, ?_, ?_, ?_⟩
      · simp only [walk, hrs]
        rfl
      · rw [countQ_append, countQ_append, countQ_joinSep " AND " (by decide)]
        simpa [leafCount, countQ] using hsum
      · simpa [dfParams] using hflat
  | .cOr items, h => by
      obtain ⟨rs, hrs, hsum, hflat⟩ := walkList_spec items (by simpa [condOk] using h)
      refine ⟨"(" ++ joinSep " OR " (rs.map Prod.fst) ++ ")", (rs.map Prod.snd).flatten, ?_, ?_, ?_⟩
      · simp only [walk, hrs]
        rfl
      · rw [countQ_append, countQ_append, countQ_joinSep " OR " (by decide)]
        simpa [leafCount, countQ] using hsum
      · simpa [dfParams] using hflat
  | .cNot c, h => by
      obtain ⟨cl, ps, hw, hcnt, hps⟩ := walk_spec c (by simpa [condOk] using h)
      refine ⟨"(NOT " ++ cl ++ ")", ps, ?_, ?_, ?_⟩
      · simp only [walk, hw]
        rfl
      · rw [countQ_append, countQ_append]
        simpa [leafCount, countQ] using hcnt
      · simpa [dfParams] using hps

theorem walkList_spec : ∀ l : List Cond, condOkList l = true →
    ∃ rs, walkList l = Except.ok rs ∧
      ((rs.map Prod.fst).map countQ).sum = leafCountList l ∧
      (rs.map Prod.snd).flatten = dfParamsList l
  | [], _ => ⟨[], rfl, rfl, rfl⟩
  | c :: cs, h => by
      have h' : condOk c = true ∧ condOkList cs = true := by
        simpa [condOkList, Bool.and_eq_true] using h
      obtain ⟨cl, ps, hw, hcnt, hps⟩ := walk_spec c h'.1
      obtain ⟨rs, hrs, hsum, hflat⟩ := walkList_spec cs h'.2
      refine ⟨(cl, ps) :: rs, ?_, ?_, ?_⟩
      · simp only [walkList, hw, hrs]
        rfl
      · simp only [List.map_cons, List.sum_cons, leafCountList, hcnt, hsum]
      · simp only [List.map_cons, List.flatten_cons, dfParamsList, hps, hflat]

end

lemma entriesParams_length :
    ∀ entries : List (String × CondVal), (entriesParams entries).length = entriesLeaves entries
  | [] => rfl
  | e :: rest => by
      have ih := entriesParams_length rest
      cases h : e.2 <;> simp [entriesParams, entriesLeaves, cvParams, cvLeaves, h, ih] <;> omega

mutual

theorem dfParams_length : ∀ c : Cond, (dfParams c).length = leafCount c
  | .obj entries => by simp [dfParams, leafCount, entriesParams_length]
  | .arr items => by simp [dfParams, leafCount, dfParamsList_length items]
  | .cAnd items => by simp [dfParams, leafCount, dfParamsList_length items]
  | .cOr items => by simp [dfParams, leafCount, dfParamsList_length items]
  | .cNot c => by simp [dfParams, leafCount, dfParams_length c]

theorem dfParamsList_length : ∀ l : List Cond, (dfParamsList l).length = leafCountList l
  | [] => rfl
  | c :: cs => by
      simp [dfParamsList, leafCountList, dfParams_length c, dfParamsList_length cs]

end

/-! ## Claims about the query builders -/

/-- C1: for a condition tree whose leaves all use single-parameter
comparison operators (no `$in` family, no `$between`) over column names
free of `?`, `_buildWhereClause` succeeds, its clause contains exactly
`leafCount c` placeholder characters, its parameter list has exactly
`leafCount c` entries, and the parameter list is exactly `dfParams c`, the
operands of the comparison leaves in depth-first, left-to-right traversal
order — so the i-th parameter belongs to the i-th placeholder. -/
theorem buildWhereClause_placeholder_param_correspondence (c : Cond)
    (h : condOk c = true) :
    _buildWhereClause c = .ok (clauseOf c, dfParams c) ∧
    countQ (clauseOf c) = leafCount c ∧
    (dfParams c).length = leafCount c := by
  obtain ⟨cl, ps, hw, hcnt, hps⟩ := walk_spec c h
  have hcl : clauseOf c = cl := by simp [clauseOf, hw]
  subst hps
  exact ⟨by simpa [_buildWhereClause, hcl] using hw, by rw [hcl]; exact hcnt,
    dfParams_length c⟩

/-- Witness for C1: `{x: 1, $or: [{a: {$gt: 5, $lte: 9}}, {b: {$like: "p%"}}], $not: {y: null}}`
— four comparison leaves, four placeholders, parameters in depth-first
order. -/
theorem buildWhereClause_placeholder_param_correspondence_witness :
    condOk (.arr [.obj [("x", .sc (.int 1))],
      .cOr [.obj [("a", .ops [("$gt", .sc (.int 5)), ("$lte", .sc (.int 9))])],
        .obj [("b", .ops [("$like", .sc (.str "p%"))])]],
      .cNot (.obj [("y", .null)])]) = true ∧
    (_buildWhereClause (.arr [.obj [("x", .sc (.int 1))],
        .cOr [.obj [("a", .ops [("$gt", .sc (.int 5)), ("$lte", .sc (.int 9))])],
          .obj [("b", .ops [("$like", .sc (.str "p%"))])]],
        .cNot (.obj [("y", .null)])])
      = .ok (clauseOf (.arr [.obj [("x", .sc (.int 1))],
          .cOr [.obj [("a", .ops [("$gt", .sc (.int 5)), ("$lte", .sc (.int 9))])],
            .obj [("b", .ops [("$like", .sc (.str "p%"))])]],
          .cNot (.obj [("y", .null)])]),
        dfParams (.arr [.obj [("x", .sc (.int 1))],
          .cOr [.obj [("a", .ops [("$gt", .sc (.int 5)), ("$lte", .sc (.int 9))])],
            .obj [("b", .ops [("$like", .sc (.str "p%"))])]],
          .cNot (.obj [("y", .null)])])) ∧
      countQ (clauseOf (.arr [.obj [("x", .sc (.int 1))],
          .cOr [.obj [("a", .ops [("$gt", .sc (.int 5)), ("$lte", .sc (.int 9))])],
            .obj [("b", .ops [("$like", .sc (.str "p%"))])]],
          .cNot (.obj [("y", .null)])]))
        = leafCount (.arr [.obj [("x", .sc (.int 1))],
            .cOr [.obj [("a", .ops [("$gt", .sc (.int 5)), ("$lte", .sc (.int 9))])],
              .obj [("b", .ops [("$like", .sc (.str "p%"))])]],
            .cNot (.obj [("y", .null)])]) ∧
      (dfParams (.arr [.obj [("x", .sc (.int 1))],
          .cOr [.obj [("a", .ops [("$gt", .sc (.int 5)), ("$lte", .sc (.int 9))])],
            .obj [("b", .ops [("$like", .sc (.str "p%"))])]],
          .cNot (.obj [("y", .null)])])).length
        = leafCount (.arr [.obj [("x", .sc (.int 1))],
            .cOr [.obj [("a", .ops [("$gt", .sc (.int 5)), ("$lte", .sc (.int 9))])],
              .obj [("b", .ops [("$like", .sc (.str "p%"))])]],
            .cNot (.obj [("y", .null)])])) :=
  ⟨by decide,
    buildWhereClause_placeholder_param_correspondence
      (.arr [.obj [("x", .sc (.int 1))],
        .cOr [.obj [("a", .ops [("$gt", .sc (.int 5)), ("$lte", .sc (.int 9))])],
          .obj [("b", .ops [("$like", .sc (.str "p%"))])]],
        .cNot (.obj [("y", .null)])]) (by decide)⟩

/-! ## Claims about the query builders (continued) -/

/-- C4: a delete descriptor with no `where` key, or whose condition tree
compiles to an empty clause (such as `where: {}`), makes
`_buildDeleteQuery` throw: no SQL statement is produced, so nothing is
issued to the database. -/
theorem buildDeleteQuery_requires_where (o : DeleteOptions)
    (h : o.whereC = none ∨ ∃ w, o.whereC = some w ∧ clauseOf w = "" ) :
    isError (_buildDeleteQuery o) = true := by
  by_cases ht : o.table = ""
  · simp [_buildDeleteQuery, ht, isError]
  · rcases h with hnone | ⟨w, hw, hclause⟩
    · simp [_buildDeleteQuery, ht, hnone, isError]
    · simp only [_buildDeleteQuery, ht, hw, if_neg ht]
      unfold clauseOf at hclause
      rcases hwalk : walk w with e | r
      · simp [_buildWhereClause, hwalk, isError]
      · rw [hwalk] at hclause
        simp only [] at hclause
        simp [_buildWhereClause, hwalk, hclause, isError]

/-- Witness for C4: `{table: "users", where: {}}` fails fast. -/
theorem buildDeleteQuery_requires_where_witness :
    ((⟨"users", some (.obj [])⟩ : DeleteOptions).whereC = none ∨
      ∃ w, (⟨"users", some (.obj [])⟩ : DeleteOptions).whereC = some w ∧ clauseOf w = "") ∧
    isError (_buildDeleteQuery ⟨"users", some (.obj [])⟩) = true :=
  ⟨Or.inr ⟨.obj [], rfl, rfl⟩,
    buildDeleteQuery_requires_where ⟨"users", some (.obj [])⟩ (Or.inr ⟨.obj [], rfl, rfl⟩)⟩

/-- C5: an update descriptor whose `data` contains only `undefined` values
yields zero settable fields, and `_buildUpdateQuery` throws
"No valid fields to update" before producing a statement. -/
theorem buildUpdateQuery_no_valid_fields (o : UpdateOptions)
    (h : ∀ p ∈ o.data, p.2 = UpdVal.undef) :
    _buildUpdateQuery o = .error "No valid fields to update" := by
  simp [_buildUpdateQuery, prepareUpdateParams_undef o.data h]

/-- Witness for C5: `data = {a: undefined}` fails fast. -/
theorem buildUpdateQuery_no_valid_fields_witness :
    (∀ p ∈ (⟨"products", [("a", UpdVal.undef)], none⟩ : UpdateOptions).data, p.2 = UpdVal.undef) ∧
    _buildUpdateQuery ⟨"products", [("a", UpdVal.undef)], none⟩ = .error "No valid fields to update" :=
  ⟨by decide, buildUpdateQuery_no_valid_fields ⟨"products", [("a", UpdVal.undef)], none⟩ (by decide)⟩

/-- C6: `$in` with an empty list compiles to the always-false fragment
`FALSE` (never `IN ()`), and each spelling of its dual (`$notIn`, `$nIn`,
`$nin`) with an empty list compiles to the always-true fragment `TRUE`;
none of them contributes a parameter. -/
theorem buildWhereClause_empty_in_degenerates (col : String) :
    _buildWhereClause (.obj [(col, .ops [("$in", .lst [])])]) = .ok ("FALSE", []) ∧
    _buildWhereClause (.obj [(col, .ops [("$notIn", .lst [])])]) = .ok ("TRUE", []) ∧
    _buildWhereClause (.obj [(col, .ops [("$nIn", .lst [])])]) = .ok ("TRUE", []) ∧
    _buildWhereClause (.obj [(col, .ops [("$nin", .lst [])])]) = .ok ("TRUE", []) :=
  ⟨rfl, rfl, rfl, rfl⟩

/-- C7: `$between` with exactly `[min, max]` compiles to
`col BETWEEN ? AND ?` with parameters `[min, max]` in that order; any
other array length throws `$between requires [min, max]` synchronously,
before any statement exists. -/
theorem buildWhereClause_between (col : String) (a b : Scalar) (vs : List Scalar)
    (h : vs.length ≠ 2) :
    _buildWhereClause (.obj [(col, .ops [("$between", .lst [a, b])])])
      = .ok (col ++ " BETWEEN ? AND ?", [.sc a, .sc b]) ∧
    _buildWhereClause (.obj [(col, .ops [("$between", .lst vs)])])
      = .error "$between requires [min, max]" := by
  refine ⟨rfl, ?_⟩
  rcases vs with _ | ⟨x, vs⟩
  · rfl
  rcases vs with _ | ⟨y, vs⟩
  · rfl
  rcases vs with _ | ⟨z, vs⟩
  · exact absurd rfl h
  · rfl

/-- Witness for C7: `{price: {$between: [10, 100]}}` compiles as stated and
a 3-element array fails fast. -/
theorem buildWhereClause_between_witness :
    (([Scalar.int 1, Scalar.int 2, Scalar.int 3] : List Scalar).length ≠ 2) ∧
    (_buildWhereClause (.obj [("price", .ops [("$between", .lst [Scalar.int 10, Scalar.int 100])])])
        = .ok ("price BETWEEN ? AND ?", [.sc (.int 10), .sc (.int 100)]) ∧
      _buildWhereClause (.obj [("price", .ops [("$between", .lst [Scalar.int 1, Scalar.int 2, Scalar.int 3])])])
        = .error "$between requires [min, max]") :=
  ⟨by decide,
    buildWhereClause_between "price" (.int 10) (.int 100) [.int 1, .int 2, .int 3] (by decide)⟩

/-- C8: an update `data` entry carrying a tagged raw expression
`{__raw: true, value: text}` puts `col = text` verbatim into the SET
fragment list, in place, and contributes no bound parameter: the parameter
list is exactly that of the surrounding entries. -/
theorem prepareUpdateParams_raw_verbatim (pre post : List (String × UpdVal)) (k t : String) :
    prepareUpdateParams (pre ++ (k, UpdVal.raw t) :: post)
      = ((prepareUpdateParams pre).1 ++ (k ++ " = " ++ t) :: (prepareUpdateParams post).1,
         (prepareUpdateParams pre).2 ++ (prepareUpdateParams post).2) ∧
    (k ++ " = " ++ t) ∈ (prepareUpdateParams (pre ++ (k, UpdVal.raw t) :: post)).1 := by
  have hmid : prepareUpdateParams ((k, UpdVal.raw t) :: post)
      = ((k ++ " = " ++ t) :: (prepareUpdateParams post).1, (prepareUpdateParams post).2) := by
    simp [prepareUpdateParams]
  refine ⟨?_, ?_⟩
  · rw [prepareUpdateParams_append, hmid]
  · rw [prepareUpdateParams_append, hmid]
    simp

/-! ## Claims about the non-transactional entry points -/

/-- C10: an empty (falsy) query string makes `find` return `[]` and
`findCount` return `0` immediately: no pool is resolved and no statement is
issued (the event log is empty). -/
theorem find_findCount_empty_query (db : Db) (params : List Operand) :
    find db "" params = (.ok [], []) ∧
    findCount db "" params = (.ok (some (.int 0)), []) :=
  ⟨rfl, rfl⟩

/-! ## Claims about the transaction session -/

/-- One step keeps the release/acquire ledger balanced: the releases in its
log plus the connection still held afterwards equal the acquisitions in its
log plus the connection held before — provided `init` is not invoked while
a connection is held. -/
lemma step_balance (s : TxState) (c : TxCall)
    (hinit : ∀ a b, c = TxCall.init a b → s.connection = false) :
    (step s c).2.2.count TxEvent.release + (step s c).1.connection.toNat
      = (step s c).2.2.count TxEvent.acquire + s.connection.toNat := by
  obtain ⟨conn, act⟩ := s
  cases c with
  | init a b =>
      have hconn : conn = false := hinit a b rfl
      subst hconn
      cases a <;> cases b <;> simp [step, stepInit, List.count_cons]
  | execute q =>
      cases conn <;> cases act <;> cases q <;> simp [step, stepExecute, List.count_cons]
  | commit ce re =>
      cases conn <;> cases act <;> cases ce <;> cases re <;>
        simp [step, stepCommit, List.count_cons]
  | rollback re =>
      cases conn <;> cases re <;> simp [step, stepRollback, List.count_cons]

/-- The ledger stays balanced along any safe call sequence. -/
lemma run_balance : ∀ (calls : List TxCall) (s : TxState), safeCalls s calls = true →
    (run s calls).2.count TxEvent.release + (run s calls).1.connection.toNat
      = (run s calls).2.count TxEvent.acquire + s.connection.toNat
  | [], s, _ => rfl
  | c :: cs, s, h => by
      cases c with
      | init a b =>
          simp only [safeCalls, Bool.and_eq_true] at h
          have hconn : s.connection = false := by simpa using h.1
          have hstep := step_balance s (.init a b) (fun _ _ _ => hconn)
          have ih := run_balance cs (step s (.init a b)).1 h.2
          simp only [run, List.count_append]
          omega
      | execute q =>
          simp only [safeCalls] at h
          have hstep := step_balance s (.execute q) (by intro x y hxy; cases hxy)
          have ih := run_balance cs (step s (.execute q)).1 h
          simp only [run, List.count_append]
          omega
      | commit a b =>
          simp only [safeCalls] at h
          have hstep := step_balance s (.commit a b) (by intro x y hxy; cases hxy)
          have ih := run_balance cs (step s (.commit a b)).1 h
          simp only [run, List.count_append]
          omega
      | rollback a =>
          simp only [safeCalls] at h
          have hstep := step_balance s (.rollback a) (by intro x y hxy; cases hxy)
          have ih := run_balance cs (step s (.rollback a)).1 h
          simp only [run, List.count_append]
          omega

/-- C2: over any call sequence that follows the session lifecycle (`init`
is never re-entered while a connection is held), the release/acquire ledger
balances exactly: every reserved connection is released exactly once except
the one still held, so a session whose run ends unheld has released each
acquired connection exactly once, and no path releases twice.  Moreover
`rollback` without a held connection (the Created state, or any second
terminal call) is a complete no-op performing no connection operation, and
`commit` after termination throws without acquiring or releasing. -/
theorem txSession_release_exactly_once (calls : List TxCall) (s : TxState)
    (e ce re : Option String)
    (hsafe : safeCalls created calls = true) (hterm : s.connection = false) :
    (run created calls).2.count TxEvent.release + (run created calls).1.connection.toNat
        = (run created calls).2.count TxEvent.acquire ∧
    step s (.rollback e) = (s, Except.ok (), []) ∧
    step s (.commit ce re) = (s, Except.error "No active transaction to commit", []) := by
  refine ⟨?_, ?_, ?_⟩
  · have h := run_balance calls created hsafe
    simpa [created] using h
  · simp [step, stepRollback, hterm]
  · simp [step, stepCommit, hterm]

/-- Witness for C2: a full lifecycle `init; execute; commit` followed by a
redundant `rollback` and a redundant `commit`. -/
theorem txSession_release_exactly_once_witness :
    (safeCalls created [TxCall.init none none, TxCall.execute none, TxCall.commit none none,
        TxCall.rollback none, TxCall.commit none none] = true ∧ created.connection = false) ∧
    ((run created [TxCall.init none none, TxCall.execute none, TxCall.commit none none,
          TxCall.rollback none, TxCall.commit none none]).2.count TxEvent.release
        + (run created [TxCall.init none none, TxCall.execute none, TxCall.commit none none,
          TxCall.rollback none, TxCall.commit none none]).1.connection.toNat
        = (run created [TxCall.init none none, TxCall.execute none, TxCall.commit none none,
          TxCall.rollback none, TxCall.commit none none]).2.count TxEvent.acquire ∧
      step created (.rollback (some "late")) = (created, Except.ok (), []) ∧
      step created (.commit (some "late") none)
        = (created, Except.error "No active transaction to commit", [])) :=
  ⟨⟨by decide, rfl⟩,
    txSession_release_exactly_once
      [TxCall.init none none, TxCall.execute none, TxCall.commit none none,
        TxCall.rollback none, TxCall.commit none none]
      created (some "late") (some "late") none (by decide) rfl⟩

/-- C3: committing an Active session with a failing `commit` performs the
best-effort rollback (the rollback operation appears in the log between the
commit attempt and the release), re-raises the original commit error
whatever the rollback outcome, releases the reserved connection exactly
once, and terminates the session (`transactionActive` false, connection
cleared).  A successful commit likewise releases exactly once and
terminates. -/
theorem txSession_commit_failure_rolls_back (s : TxState)
    (hc : s.connection = true) (ha : s.transactionActive = true)
    (e : String) (re re2 : Option String) :
    step s (.commit (some e) re)
      = (⟨false, false⟩, Except.error e, [.commitTx, .rollbackTx, .release]) ∧
    step s (.commit none re2)
      = (⟨false, false⟩, Except.ok (), [.commitTx, .release]) := by
  cases re <;> cases re2 <;> simp [step, stepCommit, hc, ha]

/-- Witness for C3: a commit failure with a failing rollback on an Active
session. -/
theorem txSession_commit_failure_rolls_back_witness :
    ((⟨true, true⟩ : TxState).connection = true ∧ (⟨true, true⟩ : TxState).transactionActive = true) ∧
    (step (⟨true, true⟩ : TxState) (.commit (some "commit failed") (some "rollback failed"))
        = (⟨false, false⟩, Except.error "commit failed", [.commitTx, .rollbackTx, .release]) ∧
      step (⟨true, true⟩ : TxState) (.commit none none)
        = (⟨false, false⟩, Except.ok (), [.commitTx, .release])) :=
  ⟨⟨rfl, rfl⟩,
    txSession_commit_failure_rolls_back ⟨true, true⟩ rfl rfl "commit failed"
      (some "rollback failed") none⟩

/-! ## Claim about the transaction registry -/

/-- C9: `hasActiveTransaction` is true exactly when a session is registered
in the slot and that session's `transactionActive` flag is true; a session
that went through `commit` or `rollback` (from the Active state) has the
flag cleared by `_cleanup`, so left registered it is not reported active. -/
theorem hasActiveTransaction_iff_registered_active (t s : TxState)
    (hc : s.connection = true) (ha : s.transactionActive = true)
    (ce re e : Option String) :
    hasActiveTransaction none = false ∧
    hasActiveTransaction (some t) = t.transactionActive ∧
    hasActiveTransaction (some (step s (.commit ce re)).1) = false ∧
    hasActiveTransaction (some (step s (.rollback e)).1) = false := by
  refine ⟨rfl, rfl, ?_, ?_⟩
  · cases ce <;> cases re <;> simp [hasActiveTransaction, step, stepCommit, hc, ha]
  · cases e <;> simp [hasActiveTransaction, step, stepRollback, hc]

/-- Witness for C9: a committed session left registered is not reported
active. -/
theorem hasActiveTransaction_iff_registered_active_witness :
    ((⟨true, true⟩ : TxState).connection = true ∧ (⟨true, true⟩ : TxState).transactionActive = true) ∧
    (hasActiveTransaction none = false ∧
      hasActiveTransaction (some (⟨true, true⟩ : TxState)) = (⟨true, true⟩ : TxState).transactionActive ∧
      hasActiveTransaction (some (step (⟨true, true⟩ : TxState) (.commit none none)).1) = false ∧
      hasActiveTransaction (some (step (⟨true, true⟩ : TxState) (.rollback none)).1) = false) :=
  ⟨⟨rfl, rfl⟩,
    hasActiveTransaction_iff_registered_active ⟨true, true⟩ ⟨true, true⟩ rfl rfl none none none⟩

end MysqlOrmLite
